import Mathlib

/-!
Shallow embedding of the ArduRoomba protocol core (command encoder,
stream framer, packet decoder) together with theorems about the
behaviour of the embedded functions.

Machine-integer conventions used throughout:
* a `uint8_t` is a `Nat`; reading a byte applies `% 256` (the storage
  domain of `uint8_t`);
* an `int16_t` is an `Int` in `[-32768, 32767]`; two's-complement
  narrowing of a wider value is `% 2^16` followed by re-signing;
* serial transmission is modelled as the list of bytes written, and
  serial reception as a list of the bytes that arrive within the
  timeout window (an empty list models "no byte arrived in time").
-/

namespace ArduRoomba

/-- `buffer[i]` for a `uint8_t` array: out-of-range reads default to 0 and
the stored value is reduced to the `uint8_t` domain. -/
def byteAt (l : List Nat) (i : Nat) : Nat := l.getD i 0 % 256

/-- Reinterpret the low 16 bits of a natural number as a two's-complement
signed 16-bit value (the effect of assigning to `int16_t`). -/
def toInt16 (n : Nat) : Int :=
  if n % 65536 < 32768 then ((n % 65536 : Nat) : Int)
  else ((n % 65536 : Nat) : Int) - 65536

/-- Reinterpret a byte as a two's-complement signed 8-bit value
(`static_cast<int8_t>`). -/
def toInt8 (n : Nat) : Int :=
  if n % 256 < 128 then ((n % 256 : Nat) : Int)
  else ((n % 256 : Nat) : Int) - 256

/-- Two's-complement 16-bit wrap of a signed value (narrowing an `int`
to `int16_t`). -/
def wrapInt16 (v : Int) : Int := toInt16 (v % 65536).toNat

/-- High byte of the 16-bit two's-complement representation of `v`:
`(v >> 8) & 0xFF` in the source. -/
def int16HighByte (v : Int) : Nat := (v % 65536).toNat / 256

/-- Low byte of the 16-bit two's-complement representation of `v`:
`v & 0xFF` in the source. -/
def int16LowByte (v : Int) : Nat := (v % 65536).toNat % 256

/-- `ErrorCode` from ArduRoombaConstants.h. -/
inductive ErrorCode : Type where
  | SUCCESS
  | TIMEOUT
  | CHECKSUM_ERROR
  | INVALID_PARAMETER
  | BUFFER_OVERFLOW
  | COMMUNICATION_ERROR
  | NOT_INITIALIZED
  | UNKNOWN_ERROR
  deriving DecidableEq, Repr

/-- `StreamState` from ArduRoombaConstants.h. -/
inductive StreamState : Type where
  | WAIT_HEADER
  | WAIT_SIZE
  | WAIT_CONTENT
  | WAIT_CHECKSUM
  | END
  deriving DecidableEq, Repr

namespace DriveVelocity

/-- `DriveVelocity::MAX_FORWARD`. -/
def MAX_FORWARD : Int := 500

/-- `DriveVelocity::MAX_BACKWARD`. -/
def MAX_BACKWARD : Int := -500

end DriveVelocity

namespace DriveRadius

/-- `DriveRadius::STRAIGHT` is declared as `int16_t STRAIGHT = 32768`;
the initializer 32768 does not fit in `int16_t` and narrows to -32768
(bit pattern 0x8000, which is what the wire encoding needs). -/
def STRAIGHT : Int := -32768

/-- `DriveRadius::TURN_IN_PLACE_CW`. -/
def TURN_IN_PLACE_CW : Int := -1

/-- `DriveRadius::TURN_IN_PLACE_CCW`. -/
def TURN_IN_PLACE_CCW : Int := 1

end DriveRadius

/-- `RoombaCommands::isValidVelocity`. -/
def isValidVelocity (velocity : Int) : Bool :=
  decide (DriveVelocity.MAX_BACKWARD ≤ velocity ∧ velocity ≤ DriveVelocity.MAX_FORWARD)

/-- `RoombaCommands::isValidRadius`. -/
def isValidRadius (radius : Int) : Bool :=
  decide ((-2000 ≤ radius ∧ radius ≤ 2000) ∨
    radius = DriveRadius.STRAIGHT ∨
    radius = DriveRadius.TURN_IN_PLACE_CW ∨
    radius = DriveRadius.TURN_IN_PLACE_CCW)

/-- `RoombaCommands::clampVelocity`. -/
def clampVelocity (velocity : Int) : Int :=
  if velocity > DriveVelocity.MAX_FORWARD then DriveVelocity.MAX_FORWARD
  else if velocity < DriveVelocity.MAX_BACKWARD then DriveVelocity.MAX_BACKWARD
  else velocity

/-- `RoombaCommands::drive`, modelled for a ready transport: the result is
the error code together with the exact byte sequence written to the
serial port (opcode 137 = DRIVE followed by the four parameter bytes,
velocity high byte first, then radius high byte first).  On validation
failure nothing is written. -/
def drive (velocity radius : Int) : ErrorCode × List Nat :=
  if !isValidVelocity velocity || !isValidRadius radius then
    (ErrorCode.INVALID_PARAMETER, [])
  else
    (ErrorCode.SUCCESS,
      [137, int16HighByte velocity, int16LowByte velocity,
       int16HighByte radius, int16LowByte radius])

/-- `RoombaCommands::moveForward`: `velocity = clampVelocity(abs(velocity))`
then `drive(velocity, DriveRadius::STRAIGHT)`.  The Arduino `abs` macro is
`x > 0 ? x : -x` computed in `int`; passing the result to the `int16_t`
parameter of `clampVelocity` narrows it with a 16-bit wrap. -/
def moveForward (velocity : Int) : ErrorCode × List Nat :=
  drive (clampVelocity (wrapInt16 (if velocity > 0 then velocity else -velocity)))
    DriveRadius.STRAIGHT

/-- `Note` from ArduRoombaTypes.h (`uint8_t` fields). -/
structure Note : Type where
  noteNumber : Nat
  noteDuration : Nat
  deriving DecidableEq, Repr

/-- `Note::isValid`: `noteNumber ∈ [MIN_NOTE, MAX_NOTE] = [31,127]` and
`noteDuration ∈ (0, MAX_DURATION] = [1,255]`. -/
def Note.isValid (n : Note) : Bool :=
  decide (31 ≤ n.noteNumber ∧ n.noteNumber ≤ 127 ∧
    0 < n.noteDuration ∧ n.noteDuration ≤ 255)

/-- `Song` from ArduRoombaTypes.h.  The fixed `Note notes[16]` array is
modelled as a total function from index to `Note`; `Song::isValid` only
ever inspects indices below `songLength ≤ 16`. -/
structure Song : Type where
  songNumber : Nat
  songLength : Nat
  notes : Nat → Note

/-- `Song::isValid`: slot at most `MAX_SONGS = 4`, length in `[1, 16]`,
and every note up to `songLength` valid. -/
def Song.isValid (s : Song) : Bool :=
  if s.songNumber > 4 ∨ s.songLength = 0 ∨ s.songLength > 16 then false
  else (List.range s.songLength).all fun i => (s.notes i).isValid

/-- `RoombaCommands::defineSong`, modelled for a ready transport: the
result is the error code together with the bytes written (opcode 140 =
SONG, slot, length, then two bytes per note).  An invalid song is
rejected before anything is written. -/
def defineSong (song : Song) : ErrorCode × List Nat :=
  if !song.isValid then
    (ErrorCode.INVALID_PARAMETER, [])
  else
    (ErrorCode.SUCCESS,
      140 :: song.songNumber % 256 :: song.songLength % 256 ::
        ((List.range song.songLength).map fun i =>
          [(song.notes i).noteNumber % 256, (song.notes i).noteDuration % 256]).flatten)

/-- The framer-relevant fields of `RoombaCore`: the parse state, the
fixed 100-byte `_streamBuffer` (held as a list of length 100), the
cursor `_streamBufferIndex` and the declared size `_expectedStreamSize`. -/
structure CoreState : Type where
  streamState : StreamState
  streamBuffer : List Nat
  streamBufferIndex : Nat
  expectedStreamSize : Nat
  deriving DecidableEq, Repr

/-- Framer state right after the `RoombaCore` constructor (or after
`startStream`): `WAIT_HEADER`, zeroed buffer, cursor 0. -/
def CoreState.fresh : CoreState :=
  ⟨StreamState.WAIT_HEADER, List.replicate 100 0, 0, 0⟩

/-- Outcome of one `readStreamData` call: the returned error code, the
content delivered into the caller's buffer (`some bytes` only on
SUCCESS, in which case `*bufferSize` becomes `bytes.length`), the
framer state after the call, and the serial bytes left unconsumed. -/
structure ReadResult : Type where
  err : ErrorCode
  out : Option (List Nat)
  st : CoreState
  rest : List Nat
  deriving DecidableEq, Repr

/-- The checksum accumulation loop of `validateStreamChecksum`:
`Σ_{i<n} data[i]` (each summand is a `uint8_t`; the running total wraps
mod 256, which is equivalent to reducing the full sum at the end). -/
def sumBytes (data : List Nat) : Nat → Nat
  | 0 => 0
  | n + 1 => sumBytes data n + byteAt data n

/-- `RoombaCore::validateStreamChecksum`: header (19) + size + received
checksum + content bytes must sum to 0 mod 256. -/
def validateStreamChecksum (data : List Nat) (dataSize receivedChecksum : Nat) : Bool :=
  decide ((19 + dataSize + receivedChecksum + sumBytes data dataSize) % 256 = 0)

/-- The `while (_serial.available() && _streamState != END)` loop of
`RoombaCore::readStreamData`, consuming serial bytes from the front of
`input`.  `callerSize` is the caller's `*bufferSize`.  Falling out of
the loop (input exhausted, or state already `END`) resets the state to
`WAIT_HEADER` and reports `COMMUNICATION_ERROR`, exactly as the code
after the loop does. -/
def readLoop (callerSize : Nat) : List Nat → CoreState → ReadResult
  | [], st =>
    (⟨ErrorCode.COMMUNICATION_ERROR, none, { st with streamState := StreamState.WAIT_HEADER }, []⟩ : ReadResult)
  | c :: rest, st =>
    match st.streamState with
    | StreamState.END =>
      -- loop condition `_streamState != END` fails before the byte is read
      ⟨ErrorCode.COMMUNICATION_ERROR, none, { st with streamState := StreamState.WAIT_HEADER }, c :: rest⟩
    | StreamState.WAIT_HEADER =>
      readLoop callerSize rest
        (if c % 256 = 19 then { st with streamState := StreamState.WAIT_SIZE } else st)
    | StreamState.WAIT_SIZE =>
      readLoop callerSize rest
        { st with expectedStreamSize := c % 256, streamBufferIndex := 0,
                  streamState := StreamState.WAIT_CONTENT }
    | StreamState.WAIT_CONTENT =>
      if st.streamBufferIndex < st.expectedStreamSize ∧ st.streamBufferIndex < 100 then
        let st1 := { st with
          streamBuffer := st.streamBuffer.set st.streamBufferIndex (c % 256),
          streamBufferIndex := st.streamBufferIndex + 1 }
        let st2 :=
          if st.streamBufferIndex + 1 ≥ st.expectedStreamSize then
            { st1 with streamState := StreamState.WAIT_CHECKSUM }
          else st1
        readLoop callerSize rest st2
      else
        -- buffer overflow: return at once, framer state untouched
        ⟨ErrorCode.BUFFER_OVERFLOW, none, st, rest⟩
    | StreamState.WAIT_CHECKSUM =>
      if validateStreamChecksum st.streamBuffer st.expectedStreamSize (c % 256) then
        let copySize := min st.expectedStreamSize callerSize
        ⟨ErrorCode.SUCCESS, some (st.streamBuffer.take copySize),
          { st with streamState := StreamState.END }, rest⟩
      else
        ⟨ErrorCode.CHECKSUM_ERROR, none,
          { st with streamState := StreamState.WAIT_HEADER }, rest⟩

/-- `RoombaCore::readStreamData` for an active stream on a ready
transport.  `input` is the list of serial bytes that arrive within the
timeout window; an empty `input` models the header wait timing out
(TIMEOUT is returned before any state is touched). -/
def readStreamData (input : List Nat) (st : CoreState) (callerSize : Nat) : ReadResult :=
  match input with
  | [] => ⟨ErrorCode.TIMEOUT, none, st, []⟩
  | c :: rest => readLoop callerSize (c :: rest) st

/-- `SensorData` from ArduRoombaTypes.h.  Unsigned integer fields are
`Nat`, signed ones `Int`, flags `Bool`; the `OIMode` / `ChargingState`
enum fields store the raw byte they are cast from. -/
structure SensorData : Type where
  nextRefresh : Nat
  lastSuccessfulRefresh : Nat
  failedAttempts : Nat
  irOpcode : Nat
  songNumber : Nat
  ioStreamNumPackets : Nat
  mode : Nat
  chargingState : Nat
  infraredCharacterLeft : Nat
  infraredCharacterRight : Nat
  temperature : Int
  voltage : Nat
  current : Int
  batteryCapacity : Nat
  batteryCharge : Nat
  dirtDetect : Nat
  velocity : Int
  rightVelocity : Int
  leftVelocity : Int
  radius : Int
  leftEncoderCounts : Nat
  rightEncoderCounts : Nat
  leftMotorCurrent : Int
  rightMotorCurrent : Int
  mainBrushMotorCurrent : Int
  sideBrushMotorCurrent : Int
  wallSignal : Nat
  cliffLeftSignal : Nat
  cliffFrontLeftSignal : Nat
  cliffRightSignal : Nat
  cliffFrontRightSignal : Nat
  lightBumpLeftSignal : Nat
  lightBumpFrontLeftSignal : Nat
  lightBumpCenterLeftSignal : Nat
  lightBumpCenterRightSignal : Nat
  lightBumpFrontRightSignal : Nat
  lightBumpRightSignal : Nat
  wall : Bool
  virtualWall : Bool
  cliffLeft : Bool
  cliffFrontLeft : Bool
  cliffRight : Bool
  cliffFrontRight : Bool
  songPlaying : Bool
  lightBumperLeft : Bool
  lightBumperFrontLeft : Bool
  lightBumperCenterLeft : Bool
  lightBumperCenterRight : Bool
  lightBumperFrontRight : Bool
  lightBumperRight : Bool
  internalChargerAvailable : Bool
  homeBaseChargerAvailable : Bool
  stasisDisabled : Bool
  stasisToggling : Bool
  cleanButton : Bool
  spotButton : Bool
  dockButton : Bool
  minuteButton : Bool
  hourButton : Bool
  dayButton : Bool
  scheduleButton : Bool
  clockButton : Bool
  wheelRightOvercurrent : Bool
  wheelLeftOvercurrent : Bool
  mainBrushOvercurrent : Bool
  sideBrushOvercurrent : Bool
  vacuumOvercurrent : Bool
  bumpRight : Bool
  bumpLeft : Bool
  wheelDropRight : Bool
  wheelDropLeft : Bool
  deriving DecidableEq, Repr

/-- `SensorData::reset` (also the default constructor): every numeric
field 0, every flag false. -/
def SensorData.reset : SensorData where
  nextRefresh := 0
  lastSuccessfulRefresh := 0
  failedAttempts := 0
  irOpcode := 0
  songNumber := 0
  ioStreamNumPackets := 0
  mode := 0
  chargingState := 0
  infraredCharacterLeft := 0
  infraredCharacterRight := 0
  temperature := 0
  voltage := 0
  current := 0
  batteryCapacity := 0
  batteryCharge := 0
  dirtDetect := 0
  velocity := 0
  rightVelocity := 0
  leftVelocity := 0
  radius := 0
  leftEncoderCounts := 0
  rightEncoderCounts := 0
  leftMotorCurrent := 0
  rightMotorCurrent := 0
  mainBrushMotorCurrent := 0
  sideBrushMotorCurrent := 0
  wallSignal := 0
  cliffLeftSignal := 0
  cliffFrontLeftSignal := 0
  cliffRightSignal := 0
  cliffFrontRightSignal := 0
  lightBumpLeftSignal := 0
  lightBumpFrontLeftSignal := 0
  lightBumpCenterLeftSignal := 0
  lightBumpCenterRightSignal := 0
  lightBumpFrontRightSignal := 0
  lightBumpRightSignal := 0
  wall := false
  virtualWall := false
  cliffLeft := false
  cliffFrontLeft := false
  cliffRight := false
  cliffFrontRight := false
  songPlaying := false
  lightBumperLeft := false
  lightBumperFrontLeft := false
  lightBumperCenterLeft := false
  lightBumperCenterRight := false
  lightBumperFrontRight := false
  lightBumperRight := false
  internalChargerAvailable := false
  homeBaseChargerAvailable := false
  stasisDisabled := false
  stasisToggling := false
  cleanButton := false
  spotButton := false
  dockButton := false
  minuteButton := false
  hourButton := false
  dayButton := false
  scheduleButton := false
  clockButton := false
  wheelRightOvercurrent := false
  wheelLeftOvercurrent := false
  mainBrushOvercurrent := false
  sideBrushOvercurrent := false
  vacuumOvercurrent := false
  bumpRight := false
  bumpLeft := false
  wheelDropRight := false
  wheelDropLeft := false

/-- `RoombaSensors::parseOneByte`: read `buffer[index]`, advance by 1. -/
def parseOneByte (buffer : List Nat) (index : Nat) : Nat := byteAt buffer index

/-- `RoombaSensors::parseTwoBytes`: `(int16_t)buffer[index] << 8 |
buffer[index+1]`, assigned to `int16_t` — i.e. the big-endian signed
16-bit value of the two bytes. -/
def parseTwoBytes (buffer : List Nat) (index : Nat) : Int :=
  toInt16 (byteAt buffer index * 256 + byteAt buffer (index + 1))

/-- `RoombaSensors::parseTwoBytesUnsigned`: big-endian unsigned 16-bit
value of the two bytes. -/
def parseTwoBytesUnsigned (buffer : List Nat) (index : Nat) : Nat :=
  byteAt buffer index * 256 + byteAt buffer (index + 1)

/-- `RoombaSensors::parseSensorPacket`: dispatch on the packet ID,
consume the bytes of that packet starting at `index`, write the decoded
value into `SensorData`.  Returns the error code, the new index and the
updated data.  Bitfield packets (`parseBitFlags`) test the individual
bits of the byte, least-significant first.  An ID with no case returns
`INVALID_PARAMETER` with the index untouched. -/
def parseSensorPacket (packetId : Nat) (buffer : List Nat) (index : Nat)
    (s : SensorData) : ErrorCode × Nat × SensorData :=
  if packetId = 35 then  -- OI_MODE
    (ErrorCode.SUCCESS, index + 1, { s with mode := parseOneByte buffer index })
  else if packetId = 38 then  -- OI_STREAM_NUM_PACKETS
    (ErrorCode.SUCCESS, index + 1, { s with ioStreamNumPackets := parseOneByte buffer index })
  else if packetId = 36 then  -- SONG_NUMBER
    (ErrorCode.SUCCESS, index + 1, { s with songNumber := parseOneByte buffer index })
  else if packetId = 17 then  -- IR_OPCODE
    (ErrorCode.SUCCESS, index + 1, { s with irOpcode := parseOneByte buffer index })
  else if packetId = 52 then  -- IR_OPCODE_LEFT
    (ErrorCode.SUCCESS, index + 1, { s with infraredCharacterLeft := parseOneByte buffer index })
  else if packetId = 53 then  -- IR_OPCODE_RIGHT
    (ErrorCode.SUCCESS, index + 1, { s with infraredCharacterRight := parseOneByte buffer index })
  else if packetId = 15 then  -- DIRT_DETECT
    (ErrorCode.SUCCESS, index + 1, { s with dirtDetect := parseOneByte buffer index })
  else if packetId = 21 then  -- CHARGING_STATE
    (ErrorCode.SUCCESS, index + 1, { s with chargingState := parseOneByte buffer index })
  else if packetId = 22 then  -- VOLTAGE
    (ErrorCode.SUCCESS, index + 2, { s with voltage := parseTwoBytesUnsigned buffer index })
  else if packetId = 23 then  -- CURRENT
    (ErrorCode.SUCCESS, index + 2, { s with current := parseTwoBytes buffer index })
  else if packetId = 39 then  -- VELOCITY
    (ErrorCode.SUCCESS, index + 2, { s with velocity := parseTwoBytes buffer index })
  else if packetId = 54 then  -- LEFT_MOTOR_CURRENT
    (ErrorCode.SUCCESS, index + 2, { s with leftMotorCurrent := parseTwoBytes buffer index })
  else if packetId = 55 then  -- RIGHT_MOTOR_CURRENT
    (ErrorCode.SUCCESS, index + 2, { s with rightMotorCurrent := parseTwoBytes buffer index })
  else if packetId = 56 then  -- MAIN_BRUSH_CURRENT
    (ErrorCode.SUCCESS, index + 2, { s with mainBrushMotorCurrent := parseTwoBytes buffer index })
  else if packetId = 57 then  -- SIDE_BRUSH_CURRENT
    (ErrorCode.SUCCESS, index + 2, { s with sideBrushMotorCurrent := parseTwoBytes buffer index })
  else if packetId = 41 then  -- VELOCITY_RIGHT
    (ErrorCode.SUCCESS, index + 2, { s with rightVelocity := parseTwoBytes buffer index })
  else if packetId = 42 then  -- VELOCITY_LEFT
    (ErrorCode.SUCCESS, index + 2, { s with leftVelocity := parseTwoBytes buffer index })
  else if packetId = 40 then  -- RADIUS
    (ErrorCode.SUCCESS, index + 2, { s with radius := parseTwoBytes buffer index })
  else if packetId = 27 then  -- WALL_SIGNAL
    (ErrorCode.SUCCESS, index + 2, { s with wallSignal := parseTwoBytesUnsigned buffer index })
  else if packetId = 28 then  -- CLIFF_LEFT_SIGNAL
    (ErrorCode.SUCCESS, index + 2, { s with cliffLeftSignal := parseTwoBytesUnsigned buffer index })
  else if packetId = 29 then  -- CLIFF_FRONT_LEFT_SIGNAL
    (ErrorCode.SUCCESS, index + 2, { s with cliffFrontLeftSignal := parseTwoBytesUnsigned buffer index })
  else if packetId = 31 then  -- CLIFF_RIGHT_SIGNAL
    (ErrorCode.SUCCESS, index + 2, { s with cliffRightSignal := parseTwoBytesUnsigned buffer index })
  else if packetId = 30 then  -- CLIFF_FRONT_RIGHT_SIGNAL
    (ErrorCode.SUCCESS, index + 2, { s with cliffFrontRightSignal := parseTwoBytesUnsigned buffer index })
  else if packetId = 46 then  -- LIGHT_BUMP_LEFT_SIGNAL
    (ErrorCode.SUCCESS, index + 2, { s with lightBumpLeftSignal := parseTwoBytesUnsigned buffer index })
  else if packetId = 47 then  -- LIGHT_BUMP_FRONT_LEFT_SIGNAL
    (ErrorCode.SUCCESS, index + 2, { s with lightBumpFrontLeftSignal := parseTwoBytesUnsigned buffer index })
  else if packetId = 48 then  -- LIGHT_BUMP_CENTER_LEFT_SIGNAL
    (ErrorCode.SUCCESS, index + 2, { s with lightBumpCenterLeftSignal := parseTwoBytesUnsigned buffer index })
  else if packetId = 49 then  -- LIGHT_BUMP_CENTER_RIGHT_SIGNAL
    (ErrorCode.SUCCESS, index + 2, { s with lightBumpCenterRightSignal := parseTwoBytesUnsigned buffer index })
  else if packetId = 50 then  -- LIGHT_BUMP_FRONT_RIGHT_SIGNAL
    (ErrorCode.SUCCESS, index + 2, { s with lightBumpFrontRightSignal := parseTwoBytesUnsigned buffer index })
  else if packetId = 51 then  -- LIGHT_BUMP_RIGHT_SIGNAL
    (ErrorCode.SUCCESS, index + 2, { s with lightBumpRightSignal := parseTwoBytesUnsigned buffer index })
  else if packetId = 24 then  -- TEMPERATURE
    (ErrorCode.SUCCESS, index + 1, { s with temperature := toInt8 (parseOneByte buffer index) })
  else if packetId = 25 then  -- BATTERY_CHARGE
    (ErrorCode.SUCCESS, index + 2, { s with batteryCharge := parseTwoBytesUnsigned buffer index })
  else if packetId = 43 then  -- ENCODER_COUNTS_LEFT
    (ErrorCode.SUCCESS, index + 2, { s with leftEncoderCounts := parseTwoBytesUnsigned buffer index })
  else if packetId = 44 then  -- ENCODER_COUNTS_RIGHT
    (ErrorCode.SUCCESS, index + 2, { s with rightEncoderCounts := parseTwoBytesUnsigned buffer index })
  else if packetId = 26 then  -- BATTERY_CAPACITY
    (ErrorCode.SUCCESS, index + 2, { s with batteryCapacity := parseTwoBytesUnsigned buffer index })
  else if packetId = 8 then  -- WALL
    (ErrorCode.SUCCESS, index + 1, { s with wall := parseOneByte buffer index ≠ 0 })
  else if packetId = 37 then  -- SONG_PLAYING
    (ErrorCode.SUCCESS, index + 1, { s with songPlaying := parseOneByte buffer index ≠ 0 })
  else if packetId = 13 then  -- VIRTUAL_WALL
    (ErrorCode.SUCCESS, index + 1, { s with virtualWall := parseOneByte buffer index ≠ 0 })
  else if packetId = 9 then  -- CLIFF_LEFT
    (ErrorCode.SUCCESS, index + 1, { s with cliffLeft := parseOneByte buffer index ≠ 0 })
  else if packetId = 10 then  -- CLIFF_FRONT_LEFT
    (ErrorCode.SUCCESS, index + 1, { s with cliffFrontLeft := parseOneByte buffer index ≠ 0 })
  else if packetId = 12 then  -- CLIFF_RIGHT
    (ErrorCode.SUCCESS, index + 1, { s with cliffRight := parseOneByte buffer index ≠ 0 })
  else if packetId = 11 then  -- CLIFF_FRONT_RIGHT
    (ErrorCode.SUCCESS, index + 1, { s with cliffFrontRight := parseOneByte buffer index ≠ 0 })
  else if packetId = 7 then  -- BUMPS_WHEEL_DROPS
    (ErrorCode.SUCCESS, index + 1, { s with
      bumpRight := (parseOneByte buffer index).testBit 0
      bumpLeft := (parseOneByte buffer index).testBit 1
      wheelDropRight := (parseOneByte buffer index).testBit 2
      wheelDropLeft := (parseOneByte buffer index).testBit 3 })
  else if packetId = 14 then  -- WHEEL_OVERCURRENTS
    (ErrorCode.SUCCESS, index + 1, { s with
      sideBrushOvercurrent := (parseOneByte buffer index).testBit 0
      vacuumOvercurrent := (parseOneByte buffer index).testBit 1
      mainBrushOvercurrent := (parseOneByte buffer index).testBit 2
      wheelRightOvercurrent := (parseOneByte buffer index).testBit 3
      wheelLeftOvercurrent := (parseOneByte buffer index).testBit 4 })
  else if packetId = 18 then  -- BUTTONS
    (ErrorCode.SUCCESS, index + 1, { s with
      cleanButton := (parseOneByte buffer index).testBit 0
      spotButton := (parseOneByte buffer index).testBit 1
      dockButton := (parseOneByte buffer index).testBit 2
      minuteButton := (parseOneByte buffer index).testBit 3
      hourButton := (parseOneByte buffer index).testBit 4
      dayButton := (parseOneByte buffer index).testBit 5
      scheduleButton := (parseOneByte buffer index).testBit 6
      clockButton := (parseOneByte buffer index).testBit 7 })
  else if packetId = 45 then  -- LIGHT_BUMPER
    (ErrorCode.SUCCESS, index + 1, { s with
      lightBumperLeft := (parseOneByte buffer index).testBit 0
      lightBumperFrontLeft := (parseOneByte buffer index).testBit 1
      lightBumperCenterLeft := (parseOneByte buffer index).testBit 2
      lightBumperCenterRight := (parseOneByte buffer index).testBit 3
      lightBumperFrontRight := (parseOneByte buffer index).testBit 4
      lightBumperRight := (parseOneByte buffer index).testBit 5 })
  else if packetId = 34 then  -- CHARGER_AVAILABLE
    (ErrorCode.SUCCESS, index + 1, { s with
      internalChargerAvailable := (parseOneByte buffer index).testBit 0
      homeBaseChargerAvailable := (parseOneByte buffer index).testBit 1 })
  else if packetId = 58 then  -- STASIS
    (ErrorCode.SUCCESS, index + 1, { s with
      stasisToggling := (parseOneByte buffer index).testBit 0
      stasisDisabled := (parseOneByte buffer index).testBit 1 })
  else
    (ErrorCode.INVALID_PARAMETER, index, s)

/-- The `while (index < bufferSize)` loop of
`RoombaSensors::parseStreamBuffer`.  The loop consumes at least two
bytes of the buffer per iteration, so `bufferSize` iterations of fuel
always suffice; the fuel-exhausted branch returns what the loop exit
returns, and is reached only with `index ≥ bufferSize`. -/
def parseStreamAux (buffer : List Nat) (bufferSize : Nat) :
    Nat → Nat → SensorData → ErrorCode × SensorData
  | 0, _, s => (ErrorCode.SUCCESS, s)
  | fuel + 1, index, s =>
    if index < bufferSize then
      let packetId := byteAt buffer index
      let r := parseSensorPacket packetId buffer (index + 1) s
      if r.1 = ErrorCode.SUCCESS then
        parseStreamAux buffer bufferSize fuel r.2.1 r.2.2
      else
        (r.1, r.2.2)
    else
      (ErrorCode.SUCCESS, s)

/-- `RoombaSensors::parseStreamBuffer`: walk the content buffer record
by record, reading a packet-ID byte and dispatching to
`parseSensorPacket`; any failure aborts the walk. -/
def parseStreamBuffer (buffer : List Nat) (bufferSize : Nat) (s : SensorData) :
    ErrorCode × SensorData :=
  if bufferSize = 0 then (ErrorCode.INVALID_PARAMETER, s)
  else parseStreamAux buffer bufferSize bufferSize 0 s

/-- Helper for reasoning about the content-accumulation phase: write the
bytes of `cs` (reduced to `uint8_t`) into `buf` starting at index `i`. -/
def setSeq : List Nat → Nat → List Nat → List Nat
  | buf, _, [] => buf
  | buf, i, c :: cs => setSeq (buf.set i (c % 256)) (i + 1) cs

/-- The overflowing call of the C10 counterexample: a frame declaring
101 content bytes, one more than the 100-byte capacity. -/
def overflowRun : ReadResult :=
  readStreamData (19 :: 101 :: List.replicate 101 7) CoreState.fresh 100

/-- The packet IDs for which `parseSensorPacket` has a case (7..58
without 16, 19, 20, 32, 33). -/
def handledIds : List Nat :=
  [7, 8, 9, 10, 11, 12, 13, 14, 15, 17, 18, 21, 22, 23, 24, 25, 26, 27, 28, 29, 30,
   31, 34, 35, 36, 37, 38, 39, 40, 41, 42, 43, 44, 45, 46, 47, 48, 49, 50, 51, 52,
   53, 54, 55, 56, 57, 58]

/-- The handled IDs whose record carries one value byte. -/
def width1Ids : List Nat :=
  [7, 8, 9, 10, 11, 12, 13, 14, 15, 17, 18, 21, 24, 34, 35, 36, 37, 38, 45, 52, 53, 58]

/-- The handled IDs whose record carries two value bytes. -/
def width2Ids : List Nat :=
  [22, 23, 25, 26, 27, 28, 29, 30, 31, 39, 40, 41, 42, 43, 44, 46, 47, 48, 49, 50,
   51, 54, 55, 56, 57]

/-- One content record of a telemetry frame: a handled packet ID
followed by its one or two value bytes. -/
inductive SensorRec : Type where
  | one (id b : Nat)
  | two (id b1 b2 : Nat)
  deriving DecidableEq, Repr

/-- A record is well formed when its ID really has the corresponding
width and its value bytes are bytes. -/
def SensorRec.valid : SensorRec → Prop
  | .one id b => id ∈ width1Ids ∧ b < 256
  | .two id b1 b2 => id ∈ width2Ids ∧ b1 < 256 ∧ b2 < 256

instance : DecidablePred SensorRec.valid := fun r =>
  match r with
  | .one id b => inferInstanceAs (Decidable (id ∈ width1Ids ∧ b < 256))
  | .two id b1 b2 => inferInstanceAs (Decidable (id ∈ width2Ids ∧ b1 < 256 ∧ b2 < 256))

/-- The wire bytes of a record. -/
def SensorRec.encode : SensorRec → List Nat
  | .one id b => [id, b]
  | .two id b1 b2 => [id, b1, b2]

/-- The packet ID of a record. -/
def SensorRec.packetId : SensorRec → Nat
  | .one id _ => id
  | .two id _ _ => id

/-- The wire bytes of a record sequence. -/
def encodeRecs : List SensorRec → List Nat
  | [] => []
  | r :: rs => r.encode ++ encodeRecs rs

/-- The effect of decoding one record on `SensorData`. -/
def applyRec (s : SensorData) (r : SensorRec) : SensorData :=
  (parseSensorPacket r.packetId r.encode 1 s).2.2

/-- The effect of decoding a record sequence, left to right. -/
def applyRecs (rs : List SensorRec) (s : SensorData) : SensorData :=
  rs.foldl applyRec s

/-! ## Theorems -/

/-- C4: for every `int16_t` velocity outside [-500, 500], or radius
outside [-2000, 2000] that is not one of the sentinel values (the
straight sentinel, 1, -1), `drive(velocity, radius)` returns
INVALID_PARAMETER and writes zero bytes to the transport. -/
theorem drive_fails_closed_on_invalid_parameters (v r : Int)
    (hv1 : -32768 ≤ v) (hv2 : v ≤ 32767) (hr1 : -32768 ≤ r) (hr2 : r ≤ 32767)
    (h : (v < -500 ∨ 500 < v) ∨
      ((r < -2000 ∨ 2000 < r) ∧ r ≠ DriveRadius.STRAIGHT ∧ r ≠ 1 ∧ r ≠ -1)) :
    drive v r = (ErrorCode.INVALID_PARAMETER, []) := by
  have hcond : (!isValidVelocity v || !isValidRadius r) = true := by
    simp only [isValidVelocity, isValidRadius, DriveVelocity.MAX_BACKWARD,
      DriveVelocity.MAX_FORWARD, DriveRadius.STRAIGHT, DriveRadius.TURN_IN_PLACE_CW,
      DriveRadius.TURN_IN_PLACE_CCW, Bool.or_eq_true, Bool.not_eq_eq_eq_not,
      Bool.not_true, decide_eq_false_iff_not] at *
    rcases h with h | ⟨h1, h2, h3, h4⟩
    · left; omega
    · right; omega
  simp [drive, hcond]

/-- C4 witness: `drive(600, 0)` returns INVALID_PARAMETER and transmits
nothing. -/
theorem drive_fails_closed_on_invalid_parameters_witness :
    drive 600 0 = (ErrorCode.INVALID_PARAMETER, []) :=
  drive_fails_closed_on_invalid_parameters 600 0 (by decide) (by decide) (by decide)
    (by decide) (Or.inl (Or.inr (by decide)))

/-- C5 (amended): for every `int16_t` velocity except -32768,
`moveForward(v)` silently clamps the magnitude |v| into [0, 500] and
transmits DRIVE with the clamped velocity (big-endian) and the straight
sentinel radius bytes 0x80 0x00.  (At v = -32768 the 16-bit wrap of
|v| = 32768 makes the code transmit velocity -500 instead — see the
counterexample.) -/
theorem moveForward_clamps_velocity (v : Int) (h1 : -32767 ≤ v) (h2 : v ≤ 32767) :
    moveForward v =
      (ErrorCode.SUCCESS,
        [137, min v.natAbs 500 / 256, min v.natAbs 500 % 256, 128, 0]) := by
  have habs : (if v > 0 then v else -v) = (v.natAbs : Int) := by
    rcases lt_trichotomy v 0 with hv | hv | hv
    · rw [if_neg (by omega)]; omega
    · subst hv; rfl
    · rw [if_pos hv]; omega
  have hn : v.natAbs ≤ 32767 := by omega
  have hwrap : wrapInt16 ((v.natAbs : Nat) : Int) = (v.natAbs : Int) := by
    unfold wrapInt16 toInt16
    rw [Int.emod_eq_of_lt (by positivity) (by omega)]
    rw [Int.toNat_natCast, Nat.mod_eq_of_lt (by omega)]
    rw [if_pos (by omega)]
  have hclamp : clampVelocity ((v.natAbs : Nat) : Int) = ((min v.natAbs 500 : Nat) : Int) := by
    unfold clampVelocity DriveVelocity.MAX_FORWARD DriveVelocity.MAX_BACKWARD
    by_cases hgt : ((v.natAbs : Nat) : Int) > 500
    · rw [if_pos hgt]; omega
    · rw [if_neg hgt, if_neg (by omega)]; omega
  have hvalid : isValidVelocity ((min v.natAbs 500 : Nat) : Int) = true := by
    simp only [isValidVelocity, DriveVelocity.MAX_BACKWARD, DriveVelocity.MAX_FORWARD,
      decide_eq_true_eq]
    constructor <;> omega
  have hradius : isValidRadius DriveRadius.STRAIGHT = true := by decide
  have hm : min v.natAbs 500 < 65536 := by omega
  unfold moveForward
  rw [habs, hwrap, hclamp]
  unfold drive
  rw [hvalid, hradius]
  simp only [Bool.not_true, Bool.or_self, Bool.false_eq_true, if_false]
  unfold int16HighByte int16LowByte DriveRadius.STRAIGHT
  rw [Int.emod_eq_of_lt (by positivity) (by omega), Int.toNat_natCast]
  have hr3 : ((-32768 : Int) % 65536).toNat / 256 = 128 := by decide
  have hr4 : ((-32768 : Int) % 65536).toNat % 256 = 0 := by decide
  rw [hr3, hr4]

/-- C5 witness: `moveForward(9000)` transmits velocity 500 (bytes
0x01 0xF4) and the straight sentinel radius (bytes 0x80 0x00). -/
theorem moveForward_clamps_velocity_witness :
    moveForward 9000 = (ErrorCode.SUCCESS, [137, 1, 244, 128, 0]) := by
  have h := moveForward_clamps_velocity 9000 (by decide) (by decide)
  simpa using h

/-- C5 counterexample: at velocity -32768 the claim fails — the
transmitted velocity bytes are 0xFE 0x0C (the encoding of -500), not
0x01 0xF4 (the encoding of the clamped magnitude 500). -/
theorem moveForward_int16_min_not_clamped :
    moveForward (-32768) = (ErrorCode.SUCCESS, [137, 254, 12, 128, 0]) ∧
      [137, 254, 12, 128, 0] ≠ [137, 1, 244, 128, 0] := by
  constructor
  · rfl
  · decide

/-- C7: a `readStreamData` call in which no byte becomes available
within the timeout window returns TIMEOUT and leaves the framer state
(parse state, cursor, content buffer, declared size) untouched. -/
theorem readStreamData_timeout_no_state_change (st : CoreState) (callerSize : Nat) :
    readStreamData [] st callerSize = ⟨ErrorCode.TIMEOUT, none, st, []⟩ := rfl

/-- C9: a `Song` whose slot exceeds 4, whose length is 0 or exceeds 16,
or that contains a note with MIDI number outside [31, 127] or duration
outside [1, 255], is rejected by `defineSong` with INVALID_PARAMETER
and nothing is transmitted. -/
theorem defineSong_rejects_invalid_songs (song : Song)
    (h : 4 < song.songNumber ∨ song.songLength = 0 ∨ 16 < song.songLength ∨
      ∃ i, i < song.songLength ∧
        ((song.notes i).noteNumber < 31 ∨ 127 < (song.notes i).noteNumber ∨
         (song.notes i).noteDuration < 1 ∨ 255 < (song.notes i).noteDuration)) :
    defineSong song = (ErrorCode.INVALID_PARAMETER, []) := by
  have hval : song.isValid = false := by
    unfold Song.isValid
    rcases h with h | h | h | ⟨i, hi, hbad⟩
    · rw [if_pos (Or.inl h)]
    · rw [if_pos (Or.inr (Or.inl h))]
    · rw [if_pos (Or.inr (Or.inr h))]
    · by_cases hc : song.songNumber > 4 ∨ song.songLength = 0 ∨ song.songLength > 16
      · rw [if_pos hc]
      · rw [if_neg hc]
        rw [List.all_eq_false]
        refine ⟨i, List.mem_range.mpr hi, ?_⟩
        simp only [Note.isValid, decide_eq_true_eq, not_and]
        omega
  simp [defineSong, hval]

/-- C9 witness: a song holding the single note (midi 20, duration 32)
— midi below the floor 31 — is rejected without any transmission. -/
theorem defineSong_rejects_invalid_songs_witness :
    (∃ i, i < 1 ∧ ((20 : Nat) < 31 ∨ (127 : Nat) < 20 ∨ (32 : Nat) < 1 ∨ (255 : Nat) < 32)) ∧
      defineSong ⟨0, 1, fun _ => ⟨20, 32⟩⟩ = (ErrorCode.INVALID_PARAMETER, []) :=
  ⟨⟨0, by decide, Or.inl (by decide)⟩,
    defineSong_rejects_invalid_songs ⟨0, 1, fun _ => ⟨20, 32⟩⟩
      (Or.inr (Or.inr (Or.inr ⟨0, by decide, Or.inl (by decide)⟩)))⟩

/-- C2 (amended): for every packet ID the decoder handles — all
individual IDs 7 through 58 except 16, 19 (DISTANCE), 20 (ANGLE), 32
and 33, which have no decoder case — decoding a content buffer holding
that single (packet_id, value) record returns SUCCESS and writes
exactly the value into the corresponding `SensorData` field, with the
width, big-endian byte order and signedness of that ID (and, for the
bitfield IDs, each mapped bit into its named flag, least-significant
bit first). -/
theorem parse_handled_packet_ids (b c : Nat) (s : SensorData) (hb : b < 256) (hc : c < 256) :
    (parseStreamBuffer [7, b] 2 s = (ErrorCode.SUCCESS,
      { s with bumpRight := b.testBit 0, bumpLeft := b.testBit 1, wheelDropRight := b.testBit 2, wheelDropLeft := b.testBit 3 })) ∧
    (parseStreamBuffer [8, b] 2 s = (ErrorCode.SUCCESS, { s with wall := b ≠ 0 })) ∧
    (parseStreamBuffer [9, b] 2 s = (ErrorCode.SUCCESS, { s with cliffLeft := b ≠ 0 })) ∧
    (parseStreamBuffer [10, b] 2 s = (ErrorCode.SUCCESS, { s with cliffFrontLeft := b ≠ 0 })) ∧
    (parseStreamBuffer [11, b] 2 s = (ErrorCode.SUCCESS, { s with cliffFrontRight := b ≠ 0 })) ∧
    (parseStreamBuffer [12, b] 2 s = (ErrorCode.SUCCESS, { s with cliffRight := b ≠ 0 })) ∧
    (parseStreamBuffer [13, b] 2 s = (ErrorCode.SUCCESS, { s with virtualWall := b ≠ 0 })) ∧
    (parseStreamBuffer [14, b] 2 s = (ErrorCode.SUCCESS,
      { s with sideBrushOvercurrent := b.testBit 0, vacuumOvercurrent := b.testBit 1, mainBrushOvercurrent := b.testBit 2, wheelRightOvercurrent := b.testBit 3, wheelLeftOvercurrent := b.testBit 4 })) ∧
    (parseStreamBuffer [15, b] 2 s = (ErrorCode.SUCCESS, { s with dirtDetect := b })) ∧
    (parseStreamBuffer [17, b] 2 s = (ErrorCode.SUCCESS, { s with irOpcode := b })) ∧
    (parseStreamBuffer [18, b] 2 s = (ErrorCode.SUCCESS,
      { s with cleanButton := b.testBit 0, spotButton := b.testBit 1, dockButton := b.testBit 2, minuteButton := b.testBit 3, hourButton := b.testBit 4, dayButton := b.testBit 5, scheduleButton := b.testBit 6, clockButton := b.testBit 7 })) ∧
    (parseStreamBuffer [21, b] 2 s = (ErrorCode.SUCCESS, { s with chargingState := b })) ∧
    (parseStreamBuffer [22, b, c] 3 s = (ErrorCode.SUCCESS, { s with voltage := b * 256 + c })) ∧
    (parseStreamBuffer [23, b, c] 3 s = (ErrorCode.SUCCESS,
      { s with current := if b * 256 + c < 32768 then ((b * 256 + c : Nat) : Int)
                 else ((b * 256 + c : Nat) : Int) - 65536 })) ∧
    (parseStreamBuffer [24, b] 2 s = (ErrorCode.SUCCESS,
      { s with temperature := if b < 128 then (b : Int) else (b : Int) - 256 })) ∧
    (parseStreamBuffer [25, b, c] 3 s = (ErrorCode.SUCCESS, { s with batteryCharge := b * 256 + c })) ∧
    (parseStreamBuffer [26, b, c] 3 s = (ErrorCode.SUCCESS, { s with batteryCapacity := b * 256 + c })) ∧
    (parseStreamBuffer [27, b, c] 3 s = (ErrorCode.SUCCESS, { s with wallSignal := b * 256 + c })) ∧
    (parseStreamBuffer [28, b, c] 3 s = (ErrorCode.SUCCESS, { s with cliffLeftSignal := b * 256 + c })) ∧
    (parseStreamBuffer [29, b, c] 3 s = (ErrorCode.SUCCESS, { s with cliffFrontLeftSignal := b * 256 + c })) ∧
    (parseStreamBuffer [30, b, c] 3 s = (ErrorCode.SUCCESS, { s with cliffFrontRightSignal := b * 256 + c })) ∧
    (parseStreamBuffer [31, b, c] 3 s = (ErrorCode.SUCCESS, { s with cliffRightSignal := b * 256 + c })) ∧
    (parseStreamBuffer [34, b] 2 s = (ErrorCode.SUCCESS,
      { s with internalChargerAvailable := b.testBit 0, homeBaseChargerAvailable := b.testBit 1 })) ∧
    (parseStreamBuffer [35, b] 2 s = (ErrorCode.SUCCESS, { s with mode := b })) ∧
    (parseStreamBuffer [36, b] 2 s = (ErrorCode.SUCCESS, { s with songNumber := b })) ∧
    (parseStreamBuffer [37, b] 2 s = (ErrorCode.SUCCESS, { s with songPlaying := b ≠ 0 })) ∧
    (parseStreamBuffer [38, b] 2 s = (ErrorCode.SUCCESS, { s with ioStreamNumPackets := b })) ∧
    (parseStreamBuffer [39, b, c] 3 s = (ErrorCode.SUCCESS,
      { s with velocity := if b * 256 + c < 32768 then ((b * 256 + c : Nat) : Int)
                 else ((b * 256 + c : Nat) : Int) - 65536 })) ∧
    (parseStreamBuffer [40, b, c] 3 s = (ErrorCode.SUCCESS,
      { s with radius := if b * 256 + c < 32768 then ((b * 256 + c : Nat) : Int)
                 else ((b * 256 + c : Nat) : Int) - 65536 })) ∧
    (parseStreamBuffer [41, b, c] 3 s = (ErrorCode.SUCCESS,
      { s with rightVelocity := if b * 256 + c < 32768 then ((b * 256 + c : Nat) : Int)
                 else ((b * 256 + c : Nat) : Int) - 65536 })) ∧
    (parseStreamBuffer [42, b, c] 3 s = (ErrorCode.SUCCESS,
      { s with leftVelocity := if b * 256 + c < 32768 then ((b * 256 + c : Nat) : Int)
                 else ((b * 256 + c : Nat) : Int) - 65536 })) ∧
    (parseStreamBuffer [43, b, c] 3 s = (ErrorCode.SUCCESS, { s with leftEncoderCounts := b * 256 + c })) ∧
    (parseStreamBuffer [44, b, c] 3 s = (ErrorCode.SUCCESS, { s with rightEncoderCounts := b * 256 + c })) ∧
    (parseStreamBuffer [45, b] 2 s = (ErrorCode.SUCCESS,
      { s with lightBumperLeft := b.testBit 0, lightBumperFrontLeft := b.testBit 1, lightBumperCenterLeft := b.testBit 2, lightBumperCenterRight := b.testBit 3, lightBumperFrontRight := b.testBit 4, lightBumperRight := b.testBit 5 })) ∧
    (parseStreamBuffer [46, b, c] 3 s = (ErrorCode.SUCCESS, { s with lightBumpLeftSignal := b * 256 + c })) ∧
    (parseStreamBuffer [47, b, c] 3 s = (ErrorCode.SUCCESS, { s with lightBumpFrontLeftSignal := b * 256 + c })) ∧
    (parseStreamBuffer [48, b, c] 3 s = (ErrorCode.SUCCESS, { s with lightBumpCenterLeftSignal := b * 256 + c })) ∧
    (parseStreamBuffer [49, b, c] 3 s = (ErrorCode.SUCCESS, { s with lightBumpCenterRightSignal := b * 256 + c })) ∧
    (parseStreamBuffer [50, b, c] 3 s = (ErrorCode.SUCCESS, { s with lightBumpFrontRightSignal := b * 256 + c })) ∧
    (parseStreamBuffer [51, b, c] 3 s = (ErrorCode.SUCCESS, { s with lightBumpRightSignal := b * 256 + c })) ∧
    (parseStreamBuffer [52, b] 2 s = (ErrorCode.SUCCESS, { s with infraredCharacterLeft := b })) ∧
    (parseStreamBuffer [53, b] 2 s = (ErrorCode.SUCCESS, { s with infraredCharacterRight := b })) ∧
    (parseStreamBuffer [54, b, c] 3 s = (ErrorCode.SUCCESS,
      { s with leftMotorCurrent := if b * 256 + c < 32768 then ((b * 256 + c : Nat) : Int)
                 else ((b * 256 + c : Nat) : Int) - 65536 })) ∧
    (parseStreamBuffer [55, b, c] 3 s = (ErrorCode.SUCCESS,
      { s with rightMotorCurrent := if b * 256 + c < 32768 then ((b * 256 + c : Nat) : Int)
                 else ((b * 256 + c : Nat) : Int) - 65536 })) ∧
    (parseStreamBuffer [56, b, c] 3 s = (ErrorCode.SUCCESS,
      { s with mainBrushMotorCurrent := if b * 256 + c < 32768 then ((b * 256 + c : Nat) : Int)
                 else ((b * 256 + c : Nat) : Int) - 65536 })) ∧
    (parseStreamBuffer [57, b, c] 3 s = (ErrorCode.SUCCESS,
      { s with sideBrushMotorCurrent := if b * 256 + c < 32768 then ((b * 256 + c : Nat) : Int)
                 else ((b * 256 + c : Nat) : Int) - 65536 })) ∧
    (parseStreamBuffer [58, b] 2 s = (ErrorCode.SUCCESS,
      { s with stasisToggling := b.testBit 0, stasisDisabled := b.testBit 1 })) := by
  have hmb : b % 256 = b := Nat.mod_eq_of_lt hb
  have hmc : c % 256 = c := Nat.mod_eq_of_lt hc
  have hbc : (b * 256 + c) % 65536 = b * 256 + c := Nat.mod_eq_of_lt (by omega)
  refine ⟨?_, ?_, ?_, ?_, ?_, ?_, ?_, ?_, ?_, ?_, ?_, ?_, ?_, ?_, ?_, ?_, ?_, ?_, ?_, ?_, ?_, ?_, ?_, ?_, ?_, ?_, ?_, ?_, ?_, ?_, ?_, ?_, ?_, ?_, ?_, ?_, ?_, ?_, ?_, ?_, ?_, ?_, ?_, ?_, ?_, ?_, ?_⟩ <;>
    simp [parseStreamBuffer, parseStreamAux, parseSensorPacket, parseOneByte,
      parseTwoBytes, parseTwoBytesUnsigned, byteAt, toInt16, toInt8, hmb, hmc, hbc]

/-- C2 witness: instantiating the per-ID theorem at bytes 1 and 44
gives, among the 47 records, voltage (ID 22) decoded as the big-endian
unsigned value 300. -/
theorem parse_handled_packet_ids_witness :
    (1 : Nat) < 256 ∧ (44 : Nat) < 256 ∧
      parseStreamBuffer [22, 1, 44] 3 SensorData.reset =
        (ErrorCode.SUCCESS, { SensorData.reset with voltage := 300 }) := by
  refine ⟨by decide, by decide, ?_⟩
  have h := (parse_handled_packet_ids 1 44 SensorData.reset (by decide) (by decide)).2.2.2.2.2.2.2.2.2.2.2.2.1
  simpa using h

/-- C2 counterexample: packet ID 19 (DISTANCE) is a defined individual
`SensorPacket` ID in 7..58, yet the decoder has no case for it: the
single-record buffer `[19, 0, 1]` is rejected with INVALID_PARAMETER
(not SUCCESS) and no field is written. -/
theorem parse_distance_id_unhandled :
    parseStreamBuffer [19, 0, 1] 3 SensorData.reset =
      (ErrorCode.INVALID_PARAMETER, SensorData.reset) ∧
    ErrorCode.INVALID_PARAMETER ≠ ErrorCode.SUCCESS := by
  constructor
  · rfl
  · decide


/-- Which parse state `readLoop` leaves behind for each returned error
code: SUCCESS leaves END, CHECKSUM_ERROR leaves WAIT_HEADER, and
BUFFER_OVERFLOW leaves WAIT_CONTENT with the abort condition (cursor
not both below the declared size and below the 100-byte capacity)
still in force. -/
lemma readLoop_err_state (cs : Nat) (input : List Nat) : ∀ st : CoreState,
    ((readLoop cs input st).err = ErrorCode.SUCCESS →
      (readLoop cs input st).st.streamState = StreamState.END) ∧
    ((readLoop cs input st).err = ErrorCode.CHECKSUM_ERROR →
      (readLoop cs input st).st.streamState = StreamState.WAIT_HEADER) ∧
    ((readLoop cs input st).err = ErrorCode.BUFFER_OVERFLOW →
      (readLoop cs input st).st.streamState = StreamState.WAIT_CONTENT ∧
      ¬((readLoop cs input st).st.streamBufferIndex < (readLoop cs input st).st.expectedStreamSize ∧
        (readLoop cs input st).st.streamBufferIndex < 100)) := by
  induction input with
  | nil => intro st; simp [readLoop]
  | cons c rest ih =>
    intro st
    rcases hss : st.streamState with h1 | h2 | h3 | h4 | h5
    · -- WAIT_HEADER
      simp only [readLoop, hss]
      exact ih _
    · -- WAIT_SIZE
      simp only [readLoop, hss]
      exact ih _
    · -- WAIT_CONTENT
      simp only [readLoop, hss]
      split
      · exact ih _
      · simp_all
    · -- WAIT_CHECKSUM
      simp only [readLoop, hss]
      split <;> simp
    · -- END
      simp [readLoop, hss]

/-- C6 (amended): a `readStreamData` call that returns SUCCESS leaves
the framer parse state at END (not WAIT_HEADER; the reset to
WAIT_HEADER happens on a checksum failure, which the second conjunct
states, or at the start of a later call). -/
theorem readStreamData_success_leaves_end (input : List Nat) (st : CoreState) (cs : Nat) :
    ((readStreamData input st cs).err = ErrorCode.SUCCESS →
      (readStreamData input st cs).st.streamState = StreamState.END) ∧
    ((readStreamData input st cs).err = ErrorCode.CHECKSUM_ERROR →
      (readStreamData input st cs).st.streamState = StreamState.WAIT_HEADER) := by
  cases input with
  | nil => simp [readStreamData]
  | cons c rest =>
    have h := readLoop_err_state cs (c :: rest) st
    exact ⟨h.1, h.2.1⟩

/-- C6 witness: a successful frame read ends with the parse state END. -/
theorem readStreamData_success_leaves_end_witness :
    (readStreamData [19, 1, 5, 231] CoreState.fresh 100).err = ErrorCode.SUCCESS ∧
      (readStreamData [19, 1, 5, 231] CoreState.fresh 100).st.streamState = StreamState.END :=
  ⟨by decide,
    (readStreamData_success_leaves_end [19, 1, 5, 231] CoreState.fresh 100).1 (by decide)⟩

/-- C6 counterexample: the valid frame [19, 1, 5, 231] (sum 256 ≡ 0) is
accepted with SUCCESS, yet the parse state afterwards is not
WAIT_HEADER — it is END. -/
theorem readStreamData_success_not_wait_header :
    (readStreamData [19, 1, 5, 231] CoreState.fresh 100).err = ErrorCode.SUCCESS ∧
      (readStreamData [19, 1, 5, 231] CoreState.fresh 100).st.streamState ≠
        StreamState.WAIT_HEADER := by
  decide

/-- C10 (amended): whenever `readStreamData` returns BUFFER_OVERFLOW,
the framer's parse state is left at WAIT_CONTENT with its current
cursor rather than being reset to WAIT_HEADER; the immediately
following call therefore does not search for a new header, but since
the abort condition still holds it accumulates nothing — it consumes
one byte, returns BUFFER_OVERFLOW again and leaves the state (cursor
and buffer included) unchanged. -/
theorem readStreamData_overflow_keeps_wait_content (input : List Nat) (st : CoreState)
    (cs : Nat) (h : (readStreamData input st cs).err = ErrorCode.BUFFER_OVERFLOW) :
    (readStreamData input st cs).st.streamState = StreamState.WAIT_CONTENT ∧
    ∀ b rest2, readStreamData (b :: rest2) (readStreamData input st cs).st cs =
      ⟨ErrorCode.BUFFER_OVERFLOW, none, (readStreamData input st cs).st, rest2⟩ := by
  have hfacts : (readStreamData input st cs).st.streamState = StreamState.WAIT_CONTENT ∧
      ¬((readStreamData input st cs).st.streamBufferIndex <
          (readStreamData input st cs).st.expectedStreamSize ∧
        (readStreamData input st cs).st.streamBufferIndex < 100) := by
    cases input with
    | nil => simp [readStreamData] at h
    | cons c rest => exact (readLoop_err_state cs (c :: rest) st).2.2 h
  obtain ⟨hwc, hcond⟩ := hfacts
  refine ⟨hwc, fun b rest2 => ?_⟩
  generalize hgen : (readStreamData input st cs).st = st2 at hwc hcond ⊢
  obtain ⟨sst, sbuf, sidx, sexp⟩ := st2
  dsimp only at hwc hcond ⊢
  subst hwc
  simp only [readStreamData, readLoop]
  rw [if_neg hcond]

/-- C10 witness: the frame start [19, 0, 55] declares size 0, and the
byte 55 then fails the accumulation guard, so the call overflows and
leaves the framer in WAIT_CONTENT; by the theorem every following call
immediately overflows again with the state unchanged. -/
theorem readStreamData_overflow_keeps_wait_content_witness :
    (readStreamData [19, 0, 55] CoreState.fresh 100).err = ErrorCode.BUFFER_OVERFLOW ∧
      (readStreamData [19, 0, 55] CoreState.fresh 100).st.streamState =
        StreamState.WAIT_CONTENT :=
  ⟨by decide,
    (readStreamData_overflow_keeps_wait_content [19, 0, 55] CoreState.fresh 100 (by decide)).1⟩

/-- C10 counterexample: after a frame declaring 101 content bytes
overflows (cursor stuck at 100), the immediately following call does
NOT resume accumulating into the aborted frame — it stores no byte at
all: it returns BUFFER_OVERFLOW with the framer state (cursor and
buffer included) exactly as it was. -/
theorem readStreamData_overflow_following_call_accumulates_nothing :
    overflowRun.err = ErrorCode.BUFFER_OVERFLOW ∧
      overflowRun.st.streamState = StreamState.WAIT_CONTENT ∧
      overflowRun.st.streamBufferIndex = 100 ∧
      readStreamData [42] overflowRun.st 100 =
        ⟨ErrorCode.BUFFER_OVERFLOW, none, overflowRun.st, []⟩ := by
  decide

lemma setSeq_cons_succ (x : Nat) : ∀ (cs bs : List Nat) (i : Nat),
    setSeq (x :: bs) (i + 1) cs = x :: setSeq bs i cs := by
  intro cs
  induction cs with
  | nil => intro bs i; rfl
  | cons c cs ih =>
    intro bs i
    simp only [setSeq, List.set_cons_succ]
    exact ih _ _

lemma setSeq_zero : ∀ (cs buf : List Nat), cs.length ≤ buf.length →
    setSeq buf 0 cs = cs.map (· % 256) ++ buf.drop cs.length := by
  intro cs
  induction cs with
  | nil => intro buf h; simp [setSeq]
  | cons c cs ih =>
    intro buf h
    cases buf with
    | nil => simp at h
    | cons b bs =>
      simp only [setSeq, List.set_cons_zero, setSeq_cons_succ, List.map_cons,
        List.length_cons, List.drop_succ_cons, List.cons_append]
      exact congrArg _ (ih bs (by simpa using h))

lemma sumBytes_eq_sum_take (l : List Nat) : ∀ n : Nat,
    sumBytes l n = ((l.map (· % 256)).take n).sum := by
  intro n
  induction n with
  | zero => simp [sumBytes]
  | succ n ih =>
    by_cases hn : n < l.length
    · rw [sumBytes, ih, byteAt, List.getD_eq_getElem l 0 hn]
      have h2 : (l.map (· % 256)).take (n + 1) =
          (l.map (· % 256)).take n ++ [l[n] % 256] := by
        rw [List.take_succ]
        simp [List.getElem?_eq_getElem hn]
      rw [h2]
      simp
    · rw [sumBytes, ih]
      have h1 : (l.map (· % 256)).take (n + 1) = (l.map (· % 256)).take n := by
        rw [List.take_of_length_le (by simp; omega), List.take_of_length_le (by simp; omega)]
      rw [h1, byteAt, List.getD_eq_default _ _ (by omega)]
      simp

lemma readLoop_content (cs : Nat) : ∀ (content : List Nat) (st : CoreState) (k : List Nat),
    st.streamState = StreamState.WAIT_CONTENT →
    content ≠ [] →
    st.streamBufferIndex + content.length = st.expectedStreamSize →
    st.expectedStreamSize ≤ 100 →
    readLoop cs (content ++ k) st =
      readLoop cs k { st with
        streamBuffer := setSeq st.streamBuffer st.streamBufferIndex content,
        streamBufferIndex := st.expectedStreamSize,
        streamState := StreamState.WAIT_CHECKSUM } := by
  intro content
  induction content with
  | nil => intro st k h1 h2 h3 h4; exact absurd rfl h2
  | cons c cs' ih =>
    intro st k hss hne hlen hcap
    have hlen' : st.streamBufferIndex + cs'.length + 1 = st.expectedStreamSize := by
      simp only [List.length_cons] at hlen
      omega
    simp only [List.cons_append, readLoop, hss]
    rw [if_pos (⟨by omega, by omega⟩ :
      st.streamBufferIndex < st.expectedStreamSize ∧ st.streamBufferIndex < 100)]
    cases cs' with
    | nil =>
      rw [if_pos (by simp at hlen'; omega)]
      have hidx : st.streamBufferIndex + 1 = st.expectedStreamSize := by
        simp at hlen'
        omega
      simp [setSeq, hidx]
    | cons c2 cs'' =>
      have hl2 : st.streamBufferIndex + cs''.length + 2 = st.expectedStreamSize := by
        simp only [List.length_cons] at hlen'
        omega
      rw [if_neg (by omega)]
      refine (ih ⟨StreamState.WAIT_CONTENT,
          st.streamBuffer.set st.streamBufferIndex (c % 256),
          st.streamBufferIndex + 1, st.expectedStreamSize⟩ k rfl (by simp)
          (by simp; omega) hcap).trans ?_
      rfl

lemma readStream_frame (C : List Nat) (k cs : Nat)
    (hC : ∀ b ∈ C, b < 256) (hk : k < 256) (h1 : 1 ≤ C.length) (h2 : C.length ≤ 100) :
    ((19 + C.length + C.sum + k) % 256 = 0 →
      readStreamData (19 :: C.length :: (C ++ [k])) CoreState.fresh cs =
        ⟨ErrorCode.SUCCESS, some (C.take (min C.length cs)),
          ⟨StreamState.END, setSeq (List.replicate 100 0) 0 C, C.length, C.length⟩, []⟩) ∧
    ((19 + C.length + C.sum + k) % 256 ≠ 0 →
      readStreamData (19 :: C.length :: (C ++ [k])) CoreState.fresh cs =
        ⟨ErrorCode.CHECKSUM_ERROR, none,
          ⟨StreamState.WAIT_HEADER, setSeq (List.replicate 100 0) 0 C, C.length, C.length⟩, []⟩) := by
  have hN : C.length % 256 = C.length := Nat.mod_eq_of_lt (by omega)
  have hbuf : setSeq (List.replicate 100 0) 0 C =
      C.map (· % 256) ++ (List.replicate 100 0).drop C.length :=
    setSeq_zero C _ (by simp [h2])
  have hrun : readStreamData (19 :: C.length :: (C ++ [k])) CoreState.fresh cs =
      readLoop cs [k] ⟨StreamState.WAIT_CHECKSUM, setSeq (List.replicate 100 0) 0 C,
        C.length, C.length⟩ := by
    show readLoop cs (19 :: C.length :: (C ++ [k])) CoreState.fresh = _
    rw [show readLoop cs (19 :: C.length :: (C ++ [k])) CoreState.fresh
        = readLoop cs (C ++ [k])
            ⟨StreamState.WAIT_CONTENT, List.replicate 100 0, 0, C.length % 256⟩ from rfl]
    rw [hN]
    rw [readLoop_content cs C _ [k] rfl (by rw [← List.length_pos]; omega) (by simp) h2]
  have hsum : sumBytes (setSeq (List.replicate 100 0) 0 C) C.length = C.sum := by
    rw [sumBytes_eq_sum_take, hbuf, List.map_append,
      List.take_append_of_le_length (by simp), List.take_of_length_le (by simp)]
    rw [List.map_map]
    have hmm : C.map ((· % 256) ∘ (· % 256)) = C.map (fun b => b) := by
      apply List.map_congr_left
      intro b hb
      simp [Nat.mod_eq_of_lt (hC b hb)]
    rw [hmm, List.map_id']
  have hval : validateStreamChecksum (setSeq (List.replicate 100 0) 0 C) C.length (k % 256)
      = decide ((19 + C.length + C.sum + k) % 256 = 0) := by
    unfold validateStreamChecksum
    rw [Nat.mod_eq_of_lt hk, hsum]
    have harr : 19 + C.length + k + C.sum = 19 + C.length + C.sum + k := by omega
    rw [harr]
  have hout : ∀ m : Nat, m ≤ C.length →
      (setSeq (List.replicate 100 0) 0 C).take m = C.take m := by
    intro m hm
    rw [hbuf, List.take_append_of_le_length (by simp [hm]), ← List.map_take]
    rw [List.map_congr_left fun b hb => Nat.mod_eq_of_lt (hC b (List.mem_of_mem_take hb))]
    exact List.map_id' _
  constructor <;> intro h0
  · rw [hrun]
    simp only [readLoop, hval, h0, decide_True, if_true]
    rw [hout _ (min_le_left _ _)]
  · rw [hrun]
    simp only [readLoop, hval]
    rw [if_neg (by simpa using h0)]

/-- C1 (amended): for every content buffer C with 1 ≤ N = |C| ≤ 100 and
every checksum byte k, `readStreamData` accepts the telemetry frame
[19, N, C..., k] — reporting SUCCESS with the content buffer — if and
only if (19 + N + Σ(C) + k) mod 256 = 0, and reports CHECKSUM_ERROR
when the sum is non-zero.  (A frame with N = 0 never reaches the
checksum state: the content guard fails on its checksum byte and the
call returns BUFFER_OVERFLOW instead — see the counterexample.) -/
theorem readStreamData_checksum_acceptance (C : List Nat) (k : Nat)
    (hC : ∀ b ∈ C, b < 256) (hk : k < 256) (h1 : 1 ≤ C.length) (h2 : C.length ≤ 100) :
    ((readStreamData (19 :: C.length :: (C ++ [k])) CoreState.fresh 100).err = ErrorCode.SUCCESS
      ↔ (19 + C.length + C.sum + k) % 256 = 0) ∧
    ((19 + C.length + C.sum + k) % 256 = 0 →
      (readStreamData (19 :: C.length :: (C ++ [k])) CoreState.fresh 100).out = some C) ∧
    ((19 + C.length + C.sum + k) % 256 ≠ 0 →
      (readStreamData (19 :: C.length :: (C ++ [k])) CoreState.fresh 100).err =
        ErrorCode.CHECKSUM_ERROR) := by
  have h := readStream_frame C k 100 hC hk h1 h2
  have hmin : min C.length 100 = C.length := min_eq_left h2
  by_cases h0 : (19 + C.length + C.sum + k) % 256 = 0
  · rw [h.1 h0]
    simp [h0, hmin]
  · rw [h.2 h0]
    simp [h0]

/-- C1 witness: the frame [19, 1, 5, 231] (19 + 1 + 5 + 231 = 256 ≡ 0)
is accepted with SUCCESS and delivers the content buffer [5]. -/
theorem readStreamData_checksum_acceptance_witness :
    (readStreamData [19, 1, 5, 231] CoreState.fresh 100).err = ErrorCode.SUCCESS ∧
    (readStreamData [19, 1, 5, 231] CoreState.fresh 100).out = some [5] := by
  have h := readStreamData_checksum_acceptance [5] 231 (by decide) (by decide)
    (by decide) (by decide)
  exact ⟨h.1.mpr (by decide), h.2.1 (by decide)⟩

/-- C1 counterexample: the zero-length frame [19, 0, 237] has byte sum
19 + 0 + 237 = 256 ≡ 0, so the claim says it is accepted — but the code
rejects it with BUFFER_OVERFLOW (the WAIT_CONTENT guard
`index < expected` is already false when the checksum byte arrives). -/
theorem readStreamData_zero_length_frame_rejected :
    (19 + (0 : Nat) + ([] : List Nat).sum + 237) % 256 = 0 ∧
    (readStreamData [19, 0, 237] CoreState.fresh 100).err = ErrorCode.BUFFER_OVERFLOW ∧
    (readStreamData [19, 0, 237] CoreState.fresh 100).err ≠ ErrorCode.SUCCESS := by
  decide

/-- C8 (amended): a SUCCESS result of `readStreamData` delivers the
first min(N, callerSize) bytes of the frame's N content bytes: the
complete validated content whenever the caller's buffer size is at
least N, but a silently truncated copy when it is smaller (see the
counterexample). -/
theorem readStreamData_success_delivery (C : List Nat) (k cs : Nat)
    (hC : ∀ b ∈ C, b < 256) (hk : k < 256) (h1 : 1 ≤ C.length) (h2 : C.length ≤ 100)
    (h0 : (19 + C.length + C.sum + k) % 256 = 0) :
    (readStreamData (19 :: C.length :: (C ++ [k])) CoreState.fresh cs).err =
      ErrorCode.SUCCESS ∧
    (readStreamData (19 :: C.length :: (C ++ [k])) CoreState.fresh cs).out =
      some (C.take (min C.length cs)) ∧
    (C.length ≤ cs →
      (readStreamData (19 :: C.length :: (C ++ [k])) CoreState.fresh cs).out = some C) := by
  have h := (readStream_frame C k cs hC hk h1 h2).1 h0
  rw [h]
  refine ⟨rfl, rfl, fun hcs => ?_⟩
  simp [min_eq_left hcs]

/-- C8 witness: with a caller buffer of size 1, the valid two-byte
frame [19, 2, 5, 6, 224] still reports SUCCESS, delivering only [5]. -/
theorem readStreamData_success_delivery_witness :
    (readStreamData [19, 2, 5, 6, 224] CoreState.fresh 1).err = ErrorCode.SUCCESS ∧
    (readStreamData [19, 2, 5, 6, 224] CoreState.fresh 1).out = some [5] := by
  have h := readStreamData_success_delivery [5, 6] 224 1 (by decide) (by decide)
    (by decide) (by decide) (by decide)
  exact ⟨h.1, h.2.1.trans (by decide)⟩

/-- C8 counterexample: a SUCCESS result CAN deliver only part of a
frame's content — the frame [19, 2, 5, 6, 224] declares two content
bytes [5, 6], yet with a caller buffer size of 1 the call returns
SUCCESS delivering just [5]. -/
theorem readStreamData_success_partial_delivery :
    (readStreamData [19, 2, 5, 6, 224] CoreState.fresh 1).err = ErrorCode.SUCCESS ∧
    (readStreamData [19, 2, 5, 6, 224] CoreState.fresh 1).out = some [5] ∧
    some ([5] : List Nat) ≠ some [5, 6] := by
  decide

lemma byteAt_append (xs ys : List Nat) (j : Nat) :
    byteAt (xs ++ ys) (xs.length + j) = byteAt ys j := by
  unfold byteAt
  rw [List.getD_append_right _ _ _ _ (by omega)]
  congr 2
  omega

lemma parseSensorPacket_unhandled (id : Nat) (h : id ∉ handledIds) (buffer : List Nat)
    (i : Nat) (s : SensorData) :
    parseSensorPacket id buffer i s = (ErrorCode.INVALID_PARAMETER, i, s) := by
  have hne : ∀ n, n ∈ handledIds → id ≠ n := fun n hn heq => h (heq ▸ hn)
  unfold parseSensorPacket
  rw [if_neg (hne 35 (by decide)),
    if_neg (hne 38 (by decide)),
    if_neg (hne 36 (by decide)),
    if_neg (hne 17 (by decide)),
    if_neg (hne 52 (by decide)),
    if_neg (hne 53 (by decide)),
    if_neg (hne 15 (by decide)),
    if_neg (hne 21 (by decide)),
    if_neg (hne 22 (by decide)),
    if_neg (hne 23 (by decide)),
    if_neg (hne 39 (by decide)),
    if_neg (hne 54 (by decide)),
    if_neg (hne 55 (by decide)),
    if_neg (hne 56 (by decide)),
    if_neg (hne 57 (by decide)),
    if_neg (hne 41 (by decide)),
    if_neg (hne 42 (by decide)),
    if_neg (hne 40 (by decide)),
    if_neg (hne 27 (by decide)),
    if_neg (hne 28 (by decide)),
    if_neg (hne 29 (by decide)),
    if_neg (hne 31 (by decide)),
    if_neg (hne 30 (by decide)),
    if_neg (hne 46 (by decide)),
    if_neg (hne 47 (by decide)),
    if_neg (hne 48 (by decide)),
    if_neg (hne 49 (by decide)),
    if_neg (hne 50 (by decide)),
    if_neg (hne 51 (by decide)),
    if_neg (hne 24 (by decide)),
    if_neg (hne 25 (by decide)),
    if_neg (hne 43 (by decide)),
    if_neg (hne 44 (by decide)),
    if_neg (hne 26 (by decide)),
    if_neg (hne 8 (by decide)),
    if_neg (hne 37 (by decide)),
    if_neg (hne 13 (by decide)),
    if_neg (hne 9 (by decide)),
    if_neg (hne 10 (by decide)),
    if_neg (hne 12 (by decide)),
    if_neg (hne 11 (by decide)),
    if_neg (hne 7 (by decide)),
    if_neg (hne 14 (by decide)),
    if_neg (hne 18 (by decide)),
    if_neg (hne 45 (by decide)),
    if_neg (hne 34 (by decide)),
    if_neg (hne 58 (by decide))]

set_option maxHeartbeats 2000000 in
lemma parseSensorPacket_width1 (id b : Nat) (hid : id ∈ width1Ids) (hb : b < 256)
    (buffer : List Nat) (i : Nat) (s : SensorData) (hbyte : byteAt buffer i = b) :
    parseSensorPacket id buffer i s =
      (ErrorCode.SUCCESS, i + 1, applyRec s (SensorRec.one id b)) := by
  have e1 : ∀ x y : Nat, byteAt [x, y] 1 = y % 256 := fun x y => rfl
  simp only [width1Ids] at hid
  fin_cases hid <;>
    simp [parseSensorPacket, applyRec, SensorRec.packetId, SensorRec.encode,
      parseOneByte, hbyte, e1, Nat.mod_eq_of_lt hb]

set_option maxHeartbeats 2000000 in
lemma parseSensorPacket_width2 (id b1 b2 : Nat) (hid : id ∈ width2Ids)
    (hb1 : b1 < 256) (hb2 : b2 < 256) (buffer : List Nat) (i : Nat) (s : SensorData)
    (hbyte1 : byteAt buffer i = b1) (hbyte2 : byteAt buffer (i + 1) = b2) :
    parseSensorPacket id buffer i s =
      (ErrorCode.SUCCESS, i + 2, applyRec s (SensorRec.two id b1 b2)) := by
  have e1 : ∀ x y z : Nat, byteAt [x, y, z] 1 = y % 256 := fun x y z => rfl
  have e2 : ∀ x y z : Nat, byteAt [x, y, z] 2 = z % 256 := fun x y z => rfl
  simp only [width2Ids] at hid
  fin_cases hid <;>
    simp [parseSensorPacket, applyRec, SensorRec.packetId, SensorRec.encode,
      parseOneByte, parseTwoBytes, parseTwoBytesUnsigned, hbyte1, hbyte2, e1, e2,
      Nat.mod_eq_of_lt hb1, Nat.mod_eq_of_lt hb2]

lemma encodeRecs_length_ge (rs : List SensorRec) : rs.length ≤ (encodeRecs rs).length := by
  induction rs with
  | nil => simp [encodeRecs]
  | cons r rs ih =>
    cases r <;> simp [encodeRecs, SensorRec.encode] <;> omega

lemma parseStreamAux_records (bad : Nat) (hbad1 : bad < 256) (hbad2 : bad ∉ handledIds)
    (rest : List Nat) :
    ∀ (rs : List SensorRec) (front : List Nat) (fuel : Nat) (s : SensorData),
    (∀ r ∈ rs, r.valid) → rs.length + 1 ≤ fuel →
    parseStreamAux (front ++ (encodeRecs rs ++ (bad :: rest)))
        (front ++ (encodeRecs rs ++ (bad :: rest))).length fuel front.length s =
      (ErrorCode.INVALID_PARAMETER, applyRecs rs s) := by
  intro rs
  induction rs with
  | nil =>
    intro front fuel s hv hfuel
    cases fuel with
    | zero => omega
    | succ f =>
      have hb0 : byteAt (front ++ (encodeRecs [] ++ (bad :: rest))) front.length = bad := by
        have h := byteAt_append front (bad :: rest) 0
        have h2 : byteAt (bad :: rest) 0 = bad := by
          simp [byteAt, Nat.mod_eq_of_lt hbad1]
        exact h.trans h2
      have hlt : front.length < (front ++ (encodeRecs [] ++ (bad :: rest))).length := by
        simp [encodeRecs]
      simp [parseStreamAux, hlt, hb0, parseSensorPacket_unhandled bad hbad2, applyRecs]
  | cons r rs ih =>
    intro front fuel s hv hfuel
    simp only [List.length_cons] at hfuel
    cases fuel with
    | zero => omega
    | succ f =>
      have hvr := hv r (by simp)
      have hvs : ∀ x ∈ rs, x.valid := fun x hx => hv x (by simp [hx])
      cases r with
      | one id b =>
        obtain ⟨hid, hb⟩ := hvr
        have hidlt : id < 256 := by
          have hall : ∀ x ∈ width1Ids, x < 256 := by decide
          exact hall id hid
        have hb0 : byteAt (front ++ (encodeRecs (SensorRec.one id b :: rs) ++ (bad :: rest)))
            front.length = id := by
          have h := byteAt_append front (id :: b :: (encodeRecs rs ++ (bad :: rest))) 0
          have h2 : byteAt (id :: b :: (encodeRecs rs ++ (bad :: rest))) 0 = id := by
            simp [byteAt, Nat.mod_eq_of_lt hidlt]
          exact h.trans h2
        have hb1 : byteAt (front ++ (encodeRecs (SensorRec.one id b :: rs) ++ (bad :: rest)))
            (front.length + 1) = b := by
          have h := byteAt_append front (id :: b :: (encodeRecs rs ++ (bad :: rest))) 1
          have h2 : byteAt (id :: b :: (encodeRecs rs ++ (bad :: rest))) 1 = b := by
            simp [byteAt, Nat.mod_eq_of_lt hb]
          exact h.trans h2
        have hlt : front.length <
            (front ++ (encodeRecs (SensorRec.one id b :: rs) ++ (bad :: rest))).length := by
          simp
        have hparse := parseSensorPacket_width1 id b hid hb
          (front ++ (encodeRecs (SensorRec.one id b :: rs) ++ (bad :: rest)))
          (front.length + 1) s hb1
        have happ := ih (front ++ [id, b]) f (applyRec s (SensorRec.one id b)) hvs (by omega)
        simp only [parseStreamAux, hlt, if_true, hb0, hparse]
        simp only [List.append_assoc] at happ ⊢
        simpa [encodeRecs, SensorRec.encode, applyRecs] using happ
      | two id b1 b2 =>
        obtain ⟨hid, hb1v, hb2v⟩ := hvr
        have hidlt : id < 256 := by
          have hall : ∀ x ∈ width2Ids, x < 256 := by decide
          exact hall id hid
        have hb0 : byteAt (front ++ (encodeRecs (SensorRec.two id b1 b2 :: rs) ++ (bad :: rest)))
            front.length = id := by
          have h := byteAt_append front (id :: b1 :: b2 :: (encodeRecs rs ++ (bad :: rest))) 0
          have h2 : byteAt (id :: b1 :: b2 :: (encodeRecs rs ++ (bad :: rest))) 0 = id := by
            simp [byteAt, Nat.mod_eq_of_lt hidlt]
          exact h.trans h2
        have hb1 : byteAt (front ++ (encodeRecs (SensorRec.two id b1 b2 :: rs) ++ (bad :: rest)))
            (front.length + 1) = b1 := by
          have h := byteAt_append front (id :: b1 :: b2 :: (encodeRecs rs ++ (bad :: rest))) 1
          have h2 : byteAt (id :: b1 :: b2 :: (encodeRecs rs ++ (bad :: rest))) 1 = b1 := by
            simp [byteAt, Nat.mod_eq_of_lt hb1v]
          exact h.trans h2
        have hb2 : byteAt (front ++ (encodeRecs (SensorRec.two id b1 b2 :: rs) ++ (bad :: rest)))
            (front.length + 1 + 1) = b2 := by
          have h := byteAt_append front (id :: b1 :: b2 :: (encodeRecs rs ++ (bad :: rest))) 2
          have h2 : byteAt (id :: b1 :: b2 :: (encodeRecs rs ++ (bad :: rest))) 2 = b2 := by
            simp [byteAt, Nat.mod_eq_of_lt hb2v]
          exact h.trans h2
        have hlt : front.length <
            (front ++ (encodeRecs (SensorRec.two id b1 b2 :: rs) ++ (bad :: rest))).length := by
          simp
        have hparse := parseSensorPacket_width2 id b1 b2 hid hb1v hb2v
          (front ++ (encodeRecs (SensorRec.two id b1 b2 :: rs) ++ (bad :: rest)))
          (front.length + 1) s hb1 hb2
        have happ := ih (front ++ [id, b1, b2]) f (applyRec s (SensorRec.two id b1 b2)) hvs (by omega)
        simp only [parseStreamAux, hlt, if_true, hb0, hparse]
        simp only [List.append_assoc] at happ ⊢
        simpa [encodeRecs, SensorRec.encode, applyRecs] using happ

/-- C3: for every content buffer consisting of well-formed records
followed by a packet-ID byte the decoder does not recognize (and
arbitrary further bytes), `parseStreamBuffer` decodes the leading
records, aborts at the unrecognized ID and returns the decode error
INVALID_PARAMETER; no record after the unrecognized ID is decoded —
the resulting SensorData is exactly the leading records applied to the
input state, whatever the trailing bytes are. -/
theorem parseStreamBuffer_aborts_on_unknown_id (rs : List SensorRec) (bad : Nat)
    (rest : List Nat) (s : SensorData) (hv : ∀ r ∈ rs, r.valid)
    (hbad1 : bad < 256) (hbad2 : bad ∉ handledIds) :
    parseStreamBuffer (encodeRecs rs ++ (bad :: rest))
        (encodeRecs rs ++ (bad :: rest)).length s =
      (ErrorCode.INVALID_PARAMETER, applyRecs rs s) := by
  have hlen : rs.length + 1 ≤ (encodeRecs rs ++ (bad :: rest)).length := by
    have h := encodeRecs_length_ge rs
    simp only [List.length_append, List.length_cons]
    omega
  have h := parseStreamAux_records bad hbad1 hbad2 rest rs []
    ((encodeRecs rs ++ (bad :: rest)).length) s hv hlen
  unfold parseStreamBuffer
  rw [if_neg (by simp)]
  exact h

/-- C3 witness: in the buffer [22, 1, 44, 19, 7, 1] — the voltage
record (22, 0x012C) followed by the unrecognized ID 19 and the bytes of
a bump record — decoding returns INVALID_PARAMETER, the record before
the unrecognized ID is decoded (voltage 300) and the bytes after it
are not (bumpRight still false). -/
theorem parseStreamBuffer_aborts_on_unknown_id_witness :
    (∀ r ∈ [SensorRec.two 22 1 44], r.valid) ∧ (19 : Nat) < 256 ∧
    (19 : Nat) ∉ handledIds ∧
    parseStreamBuffer [22, 1, 44, 19, 7, 1] 6 SensorData.reset =
      (ErrorCode.INVALID_PARAMETER, applyRecs [SensorRec.two 22 1 44] SensorData.reset) ∧
    (applyRecs [SensorRec.two 22 1 44] SensorData.reset).voltage = 300 ∧
    (applyRecs [SensorRec.two 22 1 44] SensorData.reset).bumpRight = false := by
  refine ⟨by decide, by decide, by decide, ?_, by decide, by decide⟩
  exact parseStreamBuffer_aborts_on_unknown_id [SensorRec.two 22 1 44] 19 [7, 1]
    SensorData.reset (by decide) (by decide) (by decide)

end ArduRoomba
